import Mathlib

/-!
Verification of the authenticated media-streaming proxy route
(src/routes/streamCallRecording.ts, with the per-request abort-signal
middleware of src/app.ts) against its natural-language specification.

The route is embedded shallowly: every pure computation of the source
(base64url re-padding, HMAC-SHA256 signature verification, candidate-URL
synthesis, the candidate/credential retry loop, response-header mirroring)
is translated into executable Lean definitions, and every effect crossing
the process boundary (JSON.parse, Buffer base64 decoding of the payload,
encodeURIComponent, and the four kinds of outbound fetch: record-store
login, record-store entity fetch, provider list query, upstream media
fetch) is an oracle field of a `World` record.  A run of the handler
returns its HTTP outcome together with the ordered trace of outbound
fetch requests it issued, so that claims about which fetches happen, in
what order, with which headers and with which cancellation wiring are
plain facts about the returned trace.
-/

namespace StreamCallRecording

/-! ## Machine arithmetic and SHA-256 / HMAC-SHA256

The source signs with node:crypto createHmac("sha256", secret) over the
UTF-8 bytes of the base64url payload segment.  The hash is implemented
here over `Nat` bytes/words with explicit reduction mod 2^32, following
FIPS 180-4; it reproduces the standard test vectors (see the digest
checks after the definitions). -/

/-- Addition of two 32-bit words, reduced mod 2^32. -/
def add32 (a b : Nat) : Nat := (a + b) % 4294967296

/-- Right rotation of a 32-bit word by n bits. -/
def rotr (n x : Nat) : Nat := ((x >>> n) ||| (x <<< (32 - n))) % 4294967296

/-- Lowercase sigma-0 message-schedule function of SHA-256. -/
def ssig0 (x : Nat) : Nat := rotr 7 x ^^^ rotr 18 x ^^^ (x >>> 3)

/-- Lowercase sigma-1 message-schedule function of SHA-256. -/
def ssig1 (x : Nat) : Nat := rotr 17 x ^^^ rotr 19 x ^^^ (x >>> 10)

/-- Uppercase Sigma-0 compression function of SHA-256. -/
def bsig0 (x : Nat) : Nat := rotr 2 x ^^^ rotr 13 x ^^^ rotr 22 x

/-- Uppercase Sigma-1 compression function of SHA-256. -/
def bsig1 (x : Nat) : Nat := rotr 6 x ^^^ rotr 11 x ^^^ rotr 25 x

/-- Choice function of SHA-256 (complement taken inside 32 bits). -/
def chF (x y z : Nat) : Nat := (x &&& y) ^^^ ((x ^^^ 4294967295) &&& z)

/-- Majority function of SHA-256. -/
def majF (x y z : Nat) : Nat := (x &&& y) ^^^ (x &&& z) ^^^ (y &&& z)

/-- Initial hash state of SHA-256. -/
def H0 : List Nat :=
  [1779033703, 3144134277, 1013904242, 2773480762,
   1359893119, 2600822924, 528734635, 1541459225]

/-- Round constants of SHA-256. -/
def K256 : List Nat :=
  [1116352408, 1899447441, 3049323471, 3921009573, 961987163, 1508970993,
   2453635748, 2870763221, 3624381080, 310598401, 607225278, 1426881987,
   1925078388, 2162078206, 2614888103, 3248222580, 3835390401, 4022224774,
   264347078, 604807628, 770255983, 1249150122, 1555081692, 1996064986,
   2554220882, 2821834349, 2952996808, 3210313671, 3336571891, 3584528711,
   113926993, 338241895, 666307205, 773529912, 1294757372, 1396182291,
   1695183700, 1986661051, 2177026350, 2456956037, 2730485921, 2820302411,
   3259730800, 3345764771, 3516065817, 3600352804, 4094571909, 275423344,
   430227734, 506948616, 659060556, 883997877, 958139571, 1322822218,
   1537002063, 1747873779, 1955562222, 2024104815, 2227730452, 2361852424,
   2428436474, 2756734187, 3204031479, 3329325298]

/-- Padding step of SHA-256: append the 0x80 marker, zeros up to 56 mod 64,
and the 64-bit big-endian bit length. -/
def padMessage (msg : List Nat) : List Nat :=
  let bitLen := msg.length * 8
  let zeros := (120 - ((msg.length + 1) % 64)) % 64
  msg ++ [128] ++ List.replicate zeros 0 ++
    ([56, 48, 40, 32, 24, 16, 8, 0].map (fun s => (bitLen >>> s) % 256))

/-- Grouping of a byte list into big-endian 32-bit words. -/
def toWords : List Nat → List Nat
  | b1 :: b2 :: b3 :: b4 :: rest =>
    ((b1 <<< 24) ||| (b2 <<< 16) ||| (b3 <<< 8) ||| b4) :: toWords rest
  | _ => []

/-- Message-schedule extension: appends the given number of further words
to the 16 words of a block. -/
def extendW : Nat → List Nat → List Nat
  | 0, w => w
  | k + 1, w =>
    let n := w.length
    let wi := add32 (add32 (ssig1 (w.getD (n - 2) 0)) (w.getD (n - 7) 0))
                    (add32 (ssig0 (w.getD (n - 15) 0)) (w.getD (n - 16) 0))
    extendW k (w ++ [wi])

/-- One round of the SHA-256 compression function; the state is the list
[a, b, c, d, e, f, g, h]. -/
def compressStep (st : List Nat) (kw : Nat × Nat) : List Nat :=
  match st with
  | [a, b, c, d, e, f, g, h] =>
    let t1 := add32 h (add32 (bsig1 e) (add32 (chF e f g) (add32 kw.1 kw.2)))
    let t2 := add32 (bsig0 a) (majF a b c)
    [add32 t1 t2, a, b, c, add32 d t1, e, f, g]
  | other => other

/-- Processing of one 64-byte block into the running hash state. -/
def processBlock (hs : List Nat) (block : List Nat) : List Nat :=
  let w := extendW 48 (toWords block)
  let st := (K256.zip w).foldl compressStep hs
  (hs.zip st).map (fun p => add32 p.1 p.2)

/-- Fuel-driven split of a byte list into 64-byte chunks (the fuel is the
list length, so every chunk is produced). -/
def chunksGo (fuel : Nat) (l : List Nat) : List (List Nat) :=
  match fuel with
  | 0 => []
  | f + 1 =>
    match l with
    | [] => []
    | _ => l.take 64 :: chunksGo f (l.drop 64)

/-- Big-endian byte serialization of a 32-bit word. -/
def wordBytes (x : Nat) : List Nat :=
  [(x >>> 24) &&& 255, (x >>> 16) &&& 255, (x >>> 8) &&& 255, x &&& 255]

/-- SHA-256 of a byte list. -/
def sha256Bytes (msg : List Nat) : List Nat :=
  let padded := padMessage msg
  ((chunksGo padded.length padded).foldl processBlock H0).foldr
    (fun h acc => wordBytes h ++ acc) []

/-- HMAC-SHA256 over byte lists with the standard 64-byte block size,
as computed by node:crypto createHmac("sha256", key).update(msg). -/
def hmacSha256 (key msg : List Nat) : List Nat :=
  let k0 := if 64 < key.length then sha256Bytes key else key
  let kPad := k0 ++ List.replicate (64 - k0.length) 0
  let inner := sha256Bytes ((kPad.map (fun b => b ^^^ 54)) ++ msg)
  sha256Bytes ((kPad.map (fun b => b ^^^ 92)) ++ inner)

/-- UTF-8 encoding of one scalar value. -/
def utf8Bytes (c : Char) : List Nat :=
  let n := c.toNat
  if n < 128 then [n]
  else if n < 2048 then [192 ||| (n >>> 6), 128 ||| (n &&& 63)]
  else if n < 65536 then
    [224 ||| (n >>> 12), 128 ||| ((n >>> 6) &&& 63), 128 ||| (n &&& 63)]
  else
    [240 ||| (n >>> 18), 128 ||| ((n >>> 12) &&& 63), 128 ||| ((n >>> 6) &&& 63), 128 ||| (n &&& 63)]

/-- UTF-8 bytes of a string (the byte view node takes of string inputs to
createHmac and Buffer.from). -/
def strBytes (s : String) : List Nat := s.toList.foldr (fun c acc => utf8Bytes c ++ acc) []

/-! ## Base64 encodings

The source computes digest("base64") — standard alphabet, padded — and
then rewrites it to the url-safe unpadded form with three chained
replaces.  Both the standard encoder (used verbatim by the embedded
hmacVerify and for the Basic credentials) and a direct url-safe unpadded
encoder (the form the spec names) are defined; the theorem for C10
relates them. -/

/-- Standard base64 alphabet. -/
def stdB64Chars : List Char :=
  "ABCDEFGHIJKLMNOPQRSTUVWXYZabcdefghijklmnopqrstuvwxyz0123456789+/".toList

/-- Url-safe base64 alphabet. -/
def urlB64Chars : List Char :=
  "ABCDEFGHIJKLMNOPQRSTUVWXYZabcdefghijklmnopqrstuvwxyz0123456789-_".toList

/-- Character of the standard base64 alphabet at an index. -/
def stdCh (i : Nat) : Char := stdB64Chars.getD i 'A'

/-- Character of the url-safe base64 alphabet at an index. -/
def urlCh (i : Nat) : Char := urlB64Chars.getD i 'A'

/-- Standard base64 encoding (with '=' padding) of a byte list, as a
character list. -/
def b64GroupsStd : List Nat → List Char
  | b1 :: b2 :: b3 :: rest =>
    stdCh (b1 >>> 2) :: stdCh (((b1 &&& 3) <<< 4) ||| (b2 >>> 4)) ::
    stdCh (((b2 &&& 15) <<< 2) ||| (b3 >>> 6)) :: stdCh (b3 &&& 63) :: b64GroupsStd rest
  | [b1, b2] =>
    [stdCh (b1 >>> 2), stdCh (((b1 &&& 3) <<< 4) ||| (b2 >>> 4)), stdCh ((b2 &&& 15) <<< 2), '=']
  | [b1] => [stdCh (b1 >>> 2), stdCh ((b1 &&& 3) <<< 4), '=', '=']
  | [] => []

/-- Unpadded url-safe base64 encoding of a byte list, as a character
list — the encoding the specification names for both token segments. -/
def b64GroupsUrl : List Nat → List Char
  | b1 :: b2 :: b3 :: rest =>
    urlCh (b1 >>> 2) :: urlCh (((b1 &&& 3) <<< 4) ||| (b2 >>> 4)) ::
    urlCh (((b2 &&& 15) <<< 2) ||| (b3 >>> 6)) :: urlCh (b3 &&& 63) :: b64GroupsUrl rest
  | [b1, b2] =>
    [urlCh (b1 >>> 2), urlCh (((b1 &&& 3) <<< 4) ||| (b2 >>> 4)), urlCh ((b2 &&& 15) <<< 2)]
  | [b1] => [urlCh (b1 >>> 2), urlCh ((b1 &&& 3) <<< 4)]
  | [] => []

/-- Character rewrite performed by the two global replaces of the source:
plus to minus and slash to underscore. -/
def urlsafeChar (c : Char) : Char :=
  if c = '+' then '-' else if c = '/' then '_' else c

/-- Removal of the trailing run of '=' characters, as the replace with
the anchored padding pattern does. -/
def stripTrailingEq (l : List Char) : List Char :=
  (l.reverse.dropWhile (fun c => c == '=')).reverse

/-- Standard padded base64 of the UTF-8 bytes of a string — the model of
Buffer.from(s).toString("base64"), used for Basic credentials. -/
def b64StdOfString (s : String) : String := String.mk (b64GroupsStd (strBytes s))

/-- Character list the source computes as calc inside hmacVerify:
standard base64 of the HMAC digest, then the plus/slash rewrite, then the
trailing-padding strip. -/
def macCalc (secret payloadB64 : String) : List Char :=
  stripTrailingEq ((b64GroupsStd (hmacSha256 (strBytes secret) (strBytes payloadB64))).map urlsafeChar)

/-- Embedding of hmacVerify (source lines 18-23): recompute the MAC over
the base64url payload segment string and compare with strict string
equality against the signature segment. -/
def hmacVerify (secret payloadB64 sigB64 : String) : Bool :=
  String.mk (macCalc secret payloadB64) == sigB64

/-- Signature the specification describes: the unpadded url-safe base64
of HMAC-SHA256 keyed by the secret over the base64url payload string.
Modelled from the spec (token format, section 6) for comparison with the
source-derived hmacVerify. -/
def specSignature (secret payloadB64 : String) : String :=
  String.mk (b64GroupsUrl (hmacSha256 (strBytes secret) (strBytes payloadB64)))

/-! ## JavaScript string helpers used by the route -/

/-- Splitting of a character list at every dot, as String.prototype.split
with a one-character separator does (an empty input yields one empty
segment, a trailing dot yields a trailing empty segment). -/
def splitDotChars : List Char → List (List Char)
  | [] => [[]]
  | c :: rest =>
    let r := splitDotChars rest
    if c = '.' then [] :: r
    else
      match r with
      | h :: t => (c :: h) :: t
      | [] => [[c]]

/-- Embedding of token.split(".") from source line 102. -/
def jsSplitDot (s : String) : List String :=
  (splitDotChars s.toList).map String.mk

/-- Whitespace recognized by the trim calls of the route (the inputs the
claims evaluate carry none beyond these). -/
def isJsSpace (c : Char) : Bool := c == ' ' || c == '\t' || c == '\n' || c == '\r'

/-- Embedding of String.prototype.trim as applied to every configuration
value the route reads. -/
def trimF (s : String) : String :=
  String.mk (((s.toList.dropWhile isJsSpace).reverse.dropWhile isJsSpace).reverse)

/-- JavaScript truthiness of an optional string value: absent and empty
are falsy, every other string is truthy. -/
def jsTruthy : Option String → Bool
  | none => false
  | some s => !(s == "")

/-- JavaScript falsiness of the numeric exp claim: absent and zero are
falsy (the negation guard of source line 116). -/
def jsExpFalsy : Option Nat → Bool
  | none => true
  | some n => n == 0

/-- Embedding of the JavaScript or-else idiom a || b on strings, where
the empty string is falsy (source lines 118-120). -/
def jsOr (a b : String) : String := if a ≠ "" then a else b

/-- Case-sensitive suffix test on character lists. -/
def endsWithChars (l suffix : List Char) : Bool :=
  l.reverse.take suffix.length == suffix.reverse

/-- Case-insensitive suffix test, as the anchored case-insensitive regex
tests of source lines 176-178 perform (ASCII lowering suffices for the
mp3/wav/json suffixes tested). -/
def ciEndsWith (s suffix : String) : Bool :=
  endsWithChars (s.toList.map Char.toLower) suffix.toList

/-- Removal of the last n characters of a string (the replacement of an
anchored suffix match with a shorter extension). -/
def dropRightStr (s : String) (n : Nat) : String :=
  String.mk ((s.toList.reverse.drop n).reverse)

/-- Embedding of the replace-and-pad half of base64UrlToString (source
lines 8-13): url-safe characters rewritten to the standard alphabet and
padding restored to a multiple of four.  The subsequent Buffer base64
decode and UTF-8 read happen outside the repository and are a World
oracle. -/
def base64UrlRepad (input : String) : String :=
  let b64 := input.toList.map (fun c => if c = '-' then '+' else if c = '_' then '/' else c)
  let padLen := (4 - (b64.length % 4)) % 4
  String.mk (b64 ++ List.replicate padLen '=')

/-! ## Data model -/

/-- Claims carried by the token payload (source line 114 destructures
exactly these four fields).  Absent-or-falsy JSON fields are `none`; the
exp instant is epoch milliseconds. -/
structure Payload where
  callId : Option String
  recordingSid : Option String
  twilioCallSid : Option String
  exp : Option Nat
deriving DecidableEq

/-- Call record returned by the external record store, restricted to the
three fields the route reads.  Absent-or-falsy fields are `none`. -/
structure CallRecord where
  twilio_recording_sid : Option String
  recording_url : Option String
  twilio_call_sid : Option String
deriving DecidableEq

/-- Kind of an outbound fetch: record-store login, record-store entity
fetch, provider list-recordings query, upstream media fetch. -/
inductive FetchKind where
  | login
  | entity
  | list
  | audio
deriving DecidableEq

/-- One outbound fetch request as the route issues it: URL, method, the
Authorization and Range headers when set, and whether an AbortSignal was
passed in the fetch options.  No fetch call in the source passes a
signal, so every constructor site below sets hasAbortSignal to false. -/
structure FetchRequest where
  kind : FetchKind
  url : String
  method : String
  authorization : Option String
  rangeHeader : Option String
  hasAbortSignal : Bool
deriving DecidableEq

/-- Response of the record-store login endpoint: HTTP status and the
token surfaced by the token / access_token / accessToken chain (falsy
results are none). -/
structure LoginResp where
  status : Nat
  token : Option String
deriving DecidableEq

/-- Response of the record-store entity fetch: HTTP status and the
parsed record (none models both a null body and a JSON parse failure,
which the source maps to null). -/
structure CallResp where
  status : Nat
  record : Option CallRecord
deriving DecidableEq

/-- Response of the provider list-recordings query: HTTP status and the
sid of the first listed recording when one exists (falsy sids are
none). -/
structure ListResp where
  status : Nat
  firstSid : Option String
deriving DecidableEq

/-- Response of an upstream media fetch: status, whether a body stream is
present, and the three headers the route mirrors.  Absent headers are
none. -/
structure FetchResp where
  status : Nat
  hasBody : Bool
  contentType : Option String
  contentRange : Option String
  contentLength : Option String
deriving DecidableEq

/-- Headers and status the route sets on the client response before
ending or streaming.  The unconditionally constant headers
(Accept-Ranges, Cache-Control, Content-Disposition and the CORS set) are
set on every such response and are not recorded per response. -/
structure RespMeta where
  status : Nat
  contentType : String
  contentRange : Option String
  contentLength : Option String
deriving DecidableEq

/-- Fate of the winning upstream body stream when the handler returns:
piped to the client response, cancelled, or dropped unread (the
cancelled constructor exists so the specified obligation can be stated;
no code path of the source cancels). -/
inductive BodyFate where
  | piped
  | cancelled
  | dropped
deriving DecidableEq

/-- Outcome of a handler run: a JSON error response, or a media response
carrying the mirrored headers, whether the run was a HEAD run (which
ends the client response with zero body bytes), and the fate of the
upstream body stream. -/
inductive Outcome where
  | err (status : Nat) (msg : String)
  | media (meta : RespMeta) (isHead : Bool) (fate : BodyFate)
deriving DecidableEq

/-- Environment configuration the route reads (process.env values before
trimming) together with the current clock in epoch milliseconds. -/
structure Env where
  RECORDING_TOKEN_SECRET : String
  TWILIO_AUTH_TOKEN : String
  TWILIO_ACCOUNT_SID : String
  TWILIO_API_KEY_SID : String
  TWILIO_API_KEY_SECRET : String
  BASE44_APP_ID : String
  BASE44_ADMIN_EMAIL : String
  BASE44_ADMIN_PASSWORD : String
  now : Nat

/-- Inbound request: the token query value after the String coercion of
source line 99 (missing coerces to the empty string), the Range header
when present, and whether the run came through the HEAD route (source
line 92 passes isHead = true there). -/
structure Req where
  token : String
  range : Option String
  isHead : Bool

/-- External world the route interacts with.  decodeBase64Utf8 models
Buffer.from(padded, "base64").toString("utf8"); parseJson models
JSON.parse restricted to the four payload fields (none on a parse
failure); encodeURIComponent is the JS builtin; the remaining fields
answer the four kinds of outbound fetch (audioResp is keyed by URL and
by the Authorization header value used). -/
structure World where
  decodeBase64Utf8 : String → String
  parseJson : String → Option Payload
  encodeURIComponent : String → String
  loginResp : LoginResp
  callResp : CallResp
  listResp : String → ListResp
  audioResp : String → String → FetchResp

/-! ## Candidate URL synthesis (Resource Resolver data) -/

/-- Whether a status is a success in the fetch API sense (the ok flag of
a Response: 200 through 299). -/
def statusOk (s : Nat) : Bool := 200 ≤ s && s ≤ 299

/-- Whether an upstream media response wins the candidate loop: ok
status and a present body (source line 240). -/
def wins (r : FetchResp) : Bool := statusOk r.status && r.hasBody

/-- Canonical recording-fetch URL for a recording sid and an extension
(".mp3" or ".wav"). -/
def recordingUrl (accountSid sid ext : String) : String :=
  "https://api.twilio.com/2010-04-01/Accounts/" ++ accountSid ++ "/Recordings/" ++ sid ++ ext

/-- Format-variant pair of candidate URLs for one recording sid, in the
order the source pushes them (mp3 first, wav second). -/
def recordingUrls (accountSid sid : String) : List String :=
  [recordingUrl accountSid sid ".mp3", recordingUrl accountSid sid ".wav"]

/-- URL of the provider list-recordings-for-call endpoint. -/
def listRecordingsUrl (accountSid callSid : String) : String :=
  "https://api.twilio.com/2010-04-01/Accounts/" ++ accountSid ++ "/Calls/" ++ callSid ++ "/Recordings.json"

/-- Normalization of a direct media URL into candidates (source lines
175-184): a URL already bearing an audio extension is kept alone, a
metadata .json suffix is replaced by each audio extension, any other URL
gets each audio extension appended. -/
def normalizeRecordingUrl (u : String) : List String :=
  if ciEndsWith u ".mp3" || ciEndsWith u ".wav" then [u]
  else if ciEndsWith u ".json" then
    [dropRightStr u 5 ++ ".mp3", dropRightStr u 5 ++ ".wav"]
  else [u ++ ".mp3", u ++ ".wav"]

/-- Candidates pushed for a found call record (source lines 167-185).
The source tests the recording sid and the media URL in two independent
if statements, so a record carrying both contributes both groups, sid
candidates first. -/
def candidatesFromRecord (accountSid : String) (call : CallRecord) : List String :=
  (if jsTruthy call.twilio_recording_sid then
    recordingUrls accountSid (call.twilio_recording_sid.getD "")
  else []) ++
  (if jsTruthy call.recording_url then
    normalizeRecordingUrl (call.recording_url.getD "")
  else [])

/-! ## Record-store lookup -/

/-- Base URL of the external record store. -/
def base44Base : String := "https://base44.app"

/-- Login request of the record-store lookup: a POST with a JSON body
and no Authorization, Range or AbortSignal. -/
def base44LoginRequest (appId : String) : FetchRequest :=
  { kind := FetchKind.login
    url := base44Base ++ "/api/apps/" ++ appId ++ "/auth/login"
    method := "POST"
    authorization := none
    rangeHeader := none
    hasAbortSignal := false }

/-- Entity-fetch request of the record-store lookup: a GET carrying the
bearer token from the login response and no AbortSignal. -/
def base44CallRequest (w : World) (appId tok cid : String) : FetchRequest :=
  { kind := FetchKind.entity
    url := base44Base ++ "/api/apps/" ++ appId ++ "/entities/Call/" ++ w.encodeURIComponent cid
    method := "GET"
    authorization := some ("Bearer " ++ tok)
    rangeHeader := none
    hasAbortSignal := false }

/-- Embedding of base44LoginAndGetCall (source lines 35-80).  The result
is an error for a thrown exception (missing credentials, login failure,
missing token, non-404 entity failure), ok none for a 404 or null
record, and ok (some record) otherwise, paired with the trace of fetches
issued.  The function holds no state across calls: the source keeps no
session cache, so every invocation that passes the credential check
performs a fresh login fetch. -/
def base44LoginAndGetCall (env : Env) (w : World) (callId : String) :
    Except String (Option CallRecord) × List FetchRequest :=
  let appId := trimF env.BASE44_APP_ID
  let email := trimF env.BASE44_ADMIN_EMAIL
  let password := trimF env.BASE44_ADMIN_PASSWORD
  if appId = "" ∨ email = "" ∨ password = "" then
    (Except.error "Base44 service role credentials not configured", [])
  else
    let loginReq := base44LoginRequest appId
    let lr := w.loginResp
    if !statusOk lr.status then (Except.error "Base44 login failed", [loginReq])
    else
      match lr.token with
      | none => (Except.error "Base44 login did not return an access token", [loginReq])
      | some tok =>
        let callReq := base44CallRequest w appId tok callId
        let cr := w.callResp
        if cr.status == 404 then (Except.ok none, [loginReq, callReq])
        else if !statusOk cr.status then (Except.error "Base44 Call fetch failed", [loginReq, callReq])
        else (Except.ok cr.record, [loginReq, callReq])

/-! ## Resolution of the candidate list -/

/-- List-and-pick-first step shared by strategy 3 and the final token
fallback (source lines 187-199 and 204-217): query the provider
list-recordings endpoint with the primary credential; on a successful
response with a first sid, synthesize the format-variant pair; any
failure or empty list yields zero candidates. -/
def listRecordingCandidates (w : World) (accountSid primaryAuth callSid : String) :
    List String × List FetchRequest :=
  let url := listRecordingsUrl accountSid callSid
  let req : FetchRequest :=
    { kind := FetchKind.list, url := url, method := "GET",
      authorization := some primaryAuth, rangeHeader := none, hasAbortSignal := false }
  let lr := w.listResp url
  if statusOk lr.status then
    (if jsTruthy lr.firstSid then recordingUrls accountSid (lr.firstSid.getD "") else [], [req])
  else ([], [req])

/-- Embedding of the branch ladder of the candidate-building section
(source lines 148-201): the recording-sid branch, and the call-id branch
with the record-store lookup (a caught lookup failure leaves the record
null and yields the terminal 404) and its in-branch list fallback on the
record's call sid.  The error constructor carries the early-return JSON
error. -/
def resolveStep1 (env : Env) (w : World) (payload : Payload)
    (accountSid primaryAuth : String) :
    Except (Nat × String) (List String) × List FetchRequest :=
  if jsTruthy payload.recordingSid then
    (Except.ok (recordingUrls accountSid (payload.recordingSid.getD "")), [])
  else if jsTruthy payload.callId then
    let lookup := base44LoginAndGetCall env w (payload.callId.getD "")
    let call : Option CallRecord :=
      match lookup.1 with
      | Except.error _ => none
      | Except.ok c => c
    match call with
    | none => (Except.error (404, "Call not found"), lookup.2)
    | some record =>
      let cands := candidatesFromRecord accountSid record
      if cands.isEmpty && jsTruthy record.twilio_call_sid then
        let more := listRecordingCandidates w accountSid primaryAuth (record.twilio_call_sid.getD "")
        (Except.ok (cands ++ more.1), lookup.2 ++ more.2)
      else (Except.ok cands, lookup.2)
  else (Except.ok [], [])

/-- Embedding of the whole candidate-building section (source lines
148-217): the branch ladder above followed by the final list fallback on
the token's provider call sid, applied when the ladder produced no
candidates and no early return. -/
def resolveCandidates (env : Env) (w : World) (payload : Payload)
    (accountSid primaryAuth : String) :
    Except (Nat × String) (List String) × List FetchRequest :=
  match resolveStep1 env w payload accountSid primaryAuth with
  | (Except.error e, tr) => (Except.error e, tr)
  | (Except.ok cands, tr) =>
    if cands.isEmpty && jsTruthy payload.twilioCallSid then
      let more := listRecordingCandidates w accountSid primaryAuth (payload.twilioCallSid.getD "")
      (Except.ok (cands ++ more.1), tr ++ more.2)
    else (Except.ok cands, tr)

/-! ## Upstream fetch loop -/

/-- Request built by fetchAudio (source lines 221-229): a GET with the
Authorization header, the inbound Range header forwarded verbatim when
truthy, and no AbortSignal in the fetch options. -/
def fetchAudioRequest (range : Option String) (urlStr auth : String) : FetchRequest :=
  { kind := FetchKind.audio
    url := urlStr
    method := "GET"
    authorization := some auth
    rangeHeader := if jsTruthy range then some (range.getD "") else none
    hasAbortSignal := false }

/-- Effective response for one candidate (source lines 235-239): the
primary-credential response, replaced by a single secondary-credential
retry when the primary attempt returned 401 or 403 and both credential
variants are configured. -/
def attemptResp (w : World) (authBasic keyBasic : Option String) (primaryAuth urlStr : String) :
    FetchResp :=
  if ((w.audioResp urlStr primaryAuth).status == 401 ||
      (w.audioResp urlStr primaryAuth).status == 403) && keyBasic.isSome && authBasic.isSome then
    w.audioResp urlStr (keyBasic.getD "")
  else w.audioResp urlStr primaryAuth

/-- Fetch requests issued for one candidate: the primary attempt, plus
the one secondary retry exactly when the retry condition fires. -/
def attemptTrace (w : World) (range : Option String) (authBasic keyBasic : Option String)
    (primaryAuth urlStr : String) : List FetchRequest :=
  if ((w.audioResp urlStr primaryAuth).status == 401 ||
      (w.audioResp urlStr primaryAuth).status == 403) && keyBasic.isSome && authBasic.isSome then
    [fetchAudioRequest range urlStr primaryAuth, fetchAudioRequest range urlStr (keyBasic.getD "")]
  else [fetchAudioRequest range urlStr primaryAuth]

/-- Embedding of the candidate loop (source lines 231-245): candidates
are tried strictly in order, the first effective response with ok status
and a body wins and stops the loop, and the trace records every attempt
made. -/
def tryCandidates (w : World) (range : Option String) (authBasic keyBasic : Option String)
    (primaryAuth : String) : List String → Option (String × FetchResp) × List FetchRequest
  | [] => (none, [])
  | u :: rest =>
    let r := attemptResp w authBasic keyBasic primaryAuth u
    let tr := attemptTrace w range authBasic keyBasic primaryAuth u
    if wins r then (some (u, r), tr)
    else
      let next := tryCandidates w range authBasic keyBasic primaryAuth rest
      (next.1, tr ++ next.2)

/-! ## Streaming response -/

/-- Embedding of the response tail of the handler (source lines
247-277): no winner yields the 502 JSON error; a winner has its status
propagated verbatim and its content-type, Content-Range and
Content-Length mirrored (content type defaulting by the winning URL
extension).  A HEAD run ends the client response with zero body bytes
and leaves the upstream body neither piped nor cancelled; a GET run
pipes the upstream body to the client.  No path cancels the body. -/
def finishFetch (isHead : Bool) (result : Option (String × FetchResp)) : Outcome :=
  match result with
  | none => Outcome.err 502 "Failed to fetch recording audio"
  | some (finalUrl, r) =>
    if !(statusOk r.status) || !r.hasBody then Outcome.err 502 "Failed to fetch recording audio"
    else
      let contentType :=
        if jsTruthy r.contentType then r.contentType.getD ""
        else if endsWithChars finalUrl.toList ".wav".toList then "audio/wav" else "audio/mpeg"
      let meta : RespMeta :=
        { status := r.status
          contentType := contentType
          contentRange := if jsTruthy r.contentRange then some (r.contentRange.getD "") else none
          contentLength := if jsTruthy r.contentLength then some (r.contentLength.getD "") else none }
      if isHead then Outcome.media meta true BodyFate.dropped
      else Outcome.media meta false BodyFate.piped

/-- Resolution, upstream fetch and response for a verified request
(source lines 148-277): build the candidate list, answer 404 when it is
empty, otherwise run the candidate loop and finish the response. -/
def resolveFetchRespond (req : Req) (env : Env) (w : World) (payload : Payload)
    (accountSid : String) (authBasic keyBasic : Option String) (primaryAuth : String) :
    Outcome × List FetchRequest :=
  match resolveCandidates env w payload accountSid primaryAuth with
  | (Except.error e, tr) => (Outcome.err e.1 e.2, tr)
  | (Except.ok candidates, tr) =>
    if candidates.isEmpty then (Outcome.err 404 "Recording not available", tr)
    else
      let run := tryCandidates w req.range authBasic keyBasic primaryAuth candidates
      (finishFetch req.isHead run.1, tr ++ run.2)

/-- Embedding of the request handler (source lines 95-283), in the exact
guard order of the source: missing token, segment count, payload parse,
resource-identifier presence, expiry, server secret, signature,
provider account sid, credential presence, then resolution and fetch.
The result pairs the HTTP outcome with the ordered trace of outbound
fetches. -/
def handle (req : Req) (env : Env) (w : World) : Outcome × List FetchRequest :=
  if req.token = "" then (Outcome.err 400 "Missing token", [])
  else
    match jsSplitDot req.token with
    | [payloadB64, sigB64] =>
      match w.parseJson (w.decodeBase64Utf8 (base64UrlRepad payloadB64)) with
      | none => (Outcome.err 400 "Invalid token payload", [])
      | some payload =>
        if !jsTruthy payload.callId && !jsTruthy payload.recordingSid then
          (Outcome.err 400 "Invalid token data", [])
        else if jsExpFalsy payload.exp || decide (env.now > payload.exp.getD 0) then
          (Outcome.err 401 "Token expired", [])
        else
          let secret := jsOr (trimF env.RECORDING_TOKEN_SECRET) (trimF env.TWILIO_AUTH_TOKEN)
          if secret = "" then (Outcome.err 500 "Server not configured", [])
          else if !hmacVerify secret payloadB64 sigB64 then
            (Outcome.err 401 "Invalid signature", [])
          else
            let accountSid := trimF env.TWILIO_ACCOUNT_SID
            let authToken := trimF env.TWILIO_AUTH_TOKEN
            let apiKeySid := trimF env.TWILIO_API_KEY_SID
            let apiKeySecret := trimF env.TWILIO_API_KEY_SECRET
            if accountSid = "" then (Outcome.err 500 "Twilio credentials not configured", [])
            else
              let authBasic :=
                if authToken ≠ "" then
                  some ("Basic " ++ b64StdOfString (accountSid ++ ":" ++ authToken))
                else none
              let keyBasic :=
                if apiKeySid ≠ "" ∧ apiKeySecret ≠ "" then
                  some ("Basic " ++ b64StdOfString (apiKeySid ++ ":" ++ apiKeySecret))
                else none
              match authBasic <|> keyBasic with
              | none => (Outcome.err 500 "Twilio credentials not configured", [])
              | some primaryAuth =>
                resolveFetchRespond req env w payload accountSid authBasic keyBasic primaryAuth
    | _ => (Outcome.err 400 "Invalid token", [])

/-! ## Concrete fixtures used by witness and counterexample theorems -/

/-- Failing upstream response fixture. -/
def respFail : FetchResp :=
  { status := 404, hasBody := false, contentType := none, contentRange := none, contentLength := none }

/-- Environment fixture with nothing configured and clock at 5. -/
def envBare : Env :=
  { RECORDING_TOKEN_SECRET := "", TWILIO_AUTH_TOKEN := "", TWILIO_ACCOUNT_SID := "",
    TWILIO_API_KEY_SID := "", TWILIO_API_KEY_SECRET := "", BASE44_APP_ID := "",
    BASE44_ADMIN_EMAIL := "", BASE44_ADMIN_PASSWORD := "", now := 5 }

/-- Payload fixture carrying a call id and no expiry. -/
def payloadC7 : Payload :=
  { callId := some "c", recordingSid := none, twilioCallSid := none, exp := none }

/-- World fixture whose parse step yields payloadC7 and whose fetches all
fail. -/
def worldC7 : World :=
  { decodeBase64Utf8 := fun _ => "x", parseJson := fun _ => some payloadC7,
    encodeURIComponent := id, loginResp := { status := 200, token := none },
    callResp := { status := 200, record := none },
    listResp := fun _ => { status := 200, firstSid := none },
    audioResp := fun _ _ => respFail }

/-- Request fixture with a syntactically two-segment token. -/
def reqC7 : Req := { token := "aa.bb", range := none, isHead := false }

/-- Winning upstream response fixture. -/
def respWin : FetchResp :=
  { status := 200, hasBody := true, contentType := some "audio/mpeg",
    contentRange := none, contentLength := some "4" }

/-- World fixture whose upstream answers 200 with a body only at the
second of two candidate URLs. -/
def worldC4 : World :=
  { decodeBase64Utf8 := id, parseJson := fun _ => none, encodeURIComponent := id,
    loginResp := { status := 200, token := none },
    callResp := { status := 200, record := none },
    listResp := fun _ => { status := 200, firstSid := none },
    audioResp := fun u _ => if u = "https://u2" then respWin else respFail }

/-- Unauthorized upstream response fixture. -/
def resp401 : FetchResp :=
  { status := 401, hasBody := false, contentType := none, contentRange := none, contentLength := none }

/-- World fixture whose upstream answers 401 under the primary
credential value and 200 with a body under the secondary one. -/
def worldC5 : World :=
  { decodeBase64Utf8 := id, parseJson := fun _ => none, encodeURIComponent := id,
    loginResp := { status := 200, token := none },
    callResp := { status := 200, record := none },
    listResp := fun _ => { status := 200, firstSid := none },
    audioResp := fun _ auth => if auth = "ka" then respWin else resp401 }

/-- Partial-content upstream response fixture with range headers. -/
def resp206 : FetchResp :=
  { status := 206, hasBody := true, contentType := some "audio/mpeg",
    contentRange := some "bytes 100-199/5000", contentLength := some "100" }

/-- World fixture whose upstream always answers 206 with range
headers. -/
def worldC6 : World :=
  { decodeBase64Utf8 := id, parseJson := fun _ => none, encodeURIComponent := id,
    loginResp := { status := 200, token := none },
    callResp := { status := 200, record := none },
    listResp := fun _ => { status := 200, firstSid := none },
    audioResp := fun _ _ => resp206 }

/-- Environment fixture with record-store and provider credentials
configured. -/
def envC9 : Env :=
  { RECORDING_TOKEN_SECRET := "s", TWILIO_AUTH_TOKEN := "t", TWILIO_ACCOUNT_SID := "AC1",
    TWILIO_API_KEY_SID := "", TWILIO_API_KEY_SECRET := "", BASE44_APP_ID := "app",
    BASE44_ADMIN_EMAIL := "e", BASE44_ADMIN_PASSWORD := "p", now := 5 }

/-- Payload fixture carrying a call id and also a provider call sid, so
the fallback strategy would be available were it consulted. -/
def payloadC9 : Payload :=
  { callId := some "c1", recordingSid := none, twilioCallSid := some "CA9", exp := some 100 }

/-- World fixture whose record-store login fails with a 500. -/
def worldC9 : World :=
  { decodeBase64Utf8 := id, parseJson := fun _ => none, encodeURIComponent := id,
    loginResp := { status := 500, token := none },
    callResp := { status := 200, record := none },
    listResp := fun _ => { status := 200, firstSid := some "REL" },
    audioResp := fun _ _ => respWin }

/-- Request fixture used with the C9 scenario. -/
def reqC9 : Req := { token := "x.y", range := none, isHead := false }

/-- Call record fixture carrying both a recording sid and a direct
media URL. -/
def callBoth : CallRecord :=
  { twilio_recording_sid := some "RE1", recording_url := some "https://h/a",
    twilio_call_sid := some "CA1" }

/-- World fixture whose record-store lookup succeeds and returns
callBoth. -/
def worldC1 : World :=
  { decodeBase64Utf8 := id, parseJson := fun _ => none, encodeURIComponent := id,
    loginResp := { status := 200, token := some "tok" },
    callResp := { status := 200, record := some callBoth },
    listResp := fun _ => { status := 200, firstSid := some "REL" },
    audioResp := fun _ _ => respWin }

/-- Payload fixture carrying only a call id. -/
def payloadC1 : Payload :=
  { callId := some "c1", recordingSid := none, twilioCallSid := none, exp := some 9 }

/-- Payload fixture carrying only a recording sid. -/
def payloadC2 : Payload :=
  { callId := none, recordingSid := some "RE9", twilioCallSid := none, exp := some 9 }

/-- World fixture whose parse step yields payloadC2 and whose upstream
always wins. -/
def worldC2 : World :=
  { decodeBase64Utf8 := id, parseJson := fun _ => some payloadC2, encodeURIComponent := id,
    loginResp := { status := 200, token := none },
    callResp := { status := 200, record := none },
    listResp := fun _ => { status := 200, firstSid := none },
    audioResp := fun _ _ => respWin }

/-- Request fixture whose token is genuinely signed: the signature
segment is the url-safe unpadded base64 of HMAC-SHA256 keyed by the
secret of envC9 over the payload segment, so the full handler passes
signature verification on it. -/
def reqC2 : Req :=
  { token := "x.zvsQXuIplvsWftYGR40pMbh6o6uZtLBLaMT8Fsi0mjA", range := none, isHead := false }

/-! ## Sanity checks of the hash embedding (FIPS 180-4 vector) -/

set_option maxRecDepth 10000 in
example : sha256Bytes (strBytes "abc") =
    [0xba, 0x78, 0x16, 0xbf, 0x8f, 0x01, 0xcf, 0xea, 0x41, 0x41, 0x40, 0xde, 0x5d, 0xae, 0x22, 0x23,
     0xb0, 0x03, 0x61, 0xa3, 0x96, 0x17, 0x7a, 0x9c, 0xb4, 0x10, 0xff, 0x61, 0xf2, 0x00, 0x15, 0xad] := by
  decide

/-! ## Base64 bridging lemmas for the signature codec -/

theorem urlsafe_stdCh (i : Nat) : urlsafeChar (stdCh i) = urlCh i := by
  by_cases h : i < 64
  · have hball : ∀ j < 64, urlsafeChar (stdCh j) = urlCh j := by decide
    exact hball i h
  · have h64 : 64 ≤ i := Nat.le_of_not_lt h
    have h1 : stdCh i = 'A' := by
      unfold stdCh
      exact List.getD_eq_default _ _ (by simpa using h64)
    have h2 : urlCh i = 'A' := by
      unfold urlCh
      exact List.getD_eq_default _ _ (by simpa using h64)
    rw [h1, h2]
    decide

theorem urlCh_ne_eq (i : Nat) : urlCh i ≠ '=' := by
  by_cases h : i < 64
  · have hball : ∀ j < 64, urlCh j ≠ '=' := by decide
    exact hball i h
  · have h2 : urlCh i = 'A' := by
      unfold urlCh
      exact List.getD_eq_default _ _ (by simpa using Nat.le_of_not_lt h)
    rw [h2]
    decide

theorem dropWhile_eq_self_of_head_ne (l : List Char) (hx : ∀ c ∈ l, c ≠ '=') :
    l.dropWhile (fun c => c == '=') = l := by
  cases l with
  | nil => rfl
  | cons a t =>
    have ha : a ≠ '=' := hx a (List.mem_cons_self a t)
    have hb : (a == '=') = false := by simpa using ha
    simp [List.dropWhile, hb]

theorem stripTrailingEq_append (xs ys : List Char) (hx : ∀ c ∈ xs, c ≠ '=') :
    stripTrailingEq (xs ++ ys) = xs ++ stripTrailingEq ys := by
  unfold stripTrailingEq
  rw [List.reverse_append]
  have hrev : ∀ c ∈ xs.reverse, c ≠ '=' := fun c hc => hx c (List.mem_reverse.mp hc)
  rw [List.dropWhile_append]
  by_cases hempty : (ys.reverse.dropWhile (fun c => c == '=')).isEmpty
  · rw [if_pos hempty, dropWhile_eq_self_of_head_ne _ hrev, List.reverse_reverse]
    have : ys.reverse.dropWhile (fun c => c == '=') = [] := by
      simpa [List.isEmpty_iff] using hempty
    rw [this]
    simp
  · rw [if_neg hempty]
    rw [List.reverse_append, List.reverse_reverse]

theorem b64_bridge (bs : List Nat) :
    stripTrailingEq ((b64GroupsStd bs).map urlsafeChar) = b64GroupsUrl bs := by
  induction bs using b64GroupsStd.induct with
  | case1 b1 b2 b3 rest ih =>
    rw [b64GroupsStd, b64GroupsUrl]
    have hshape :
        (stdCh (b1 >>> 2) :: stdCh (((b1 &&& 3) <<< 4) ||| (b2 >>> 4)) ::
          stdCh (((b2 &&& 15) <<< 2) ||| (b3 >>> 6)) :: stdCh (b3 &&& 63) :: b64GroupsStd rest).map
            urlsafeChar =
        [urlCh (b1 >>> 2), urlCh (((b1 &&& 3) <<< 4) ||| (b2 >>> 4)),
         urlCh (((b2 &&& 15) <<< 2) ||| (b3 >>> 6)), urlCh (b3 &&& 63)] ++
          (b64GroupsStd rest).map urlsafeChar := by
      simp [urlsafe_stdCh]
    rw [hshape, stripTrailingEq_append _ _ (by
      intro c hc
      simp only [List.mem_cons, List.not_mem_nil, or_false] at hc
      rcases hc with h | h | h | h <;> (rw [h]; exact urlCh_ne_eq _)), ih]
    simp
  | case2 b1 b2 =>
    rw [b64GroupsStd, b64GroupsUrl]
    have hshape :
        ([stdCh (b1 >>> 2), stdCh (((b1 &&& 3) <<< 4) ||| (b2 >>> 4)),
          stdCh ((b2 &&& 15) <<< 2), '=']).map urlsafeChar =
        [urlCh (b1 >>> 2), urlCh (((b1 &&& 3) <<< 4) ||| (b2 >>> 4)),
         urlCh ((b2 &&& 15) <<< 2)] ++ ['='] := by
      simp [urlsafe_stdCh]
      decide
    rw [hshape, stripTrailingEq_append _ _ (by
      intro c hc
      simp only [List.mem_cons, List.not_mem_nil, or_false] at hc
      rcases hc with h | h | h <;> (rw [h]; exact urlCh_ne_eq _))]
    simp [stripTrailingEq]
  | case3 b1 =>
    rw [b64GroupsStd, b64GroupsUrl]
    have hshape :
        ([stdCh (b1 >>> 2), stdCh ((b1 &&& 3) <<< 4), '=', '=']).map urlsafeChar =
        [urlCh (b1 >>> 2), urlCh ((b1 &&& 3) <<< 4)] ++ ['=', '='] := by
      simp [urlsafe_stdCh]
      decide
    rw [hshape, stripTrailingEq_append _ _ (by
      intro c hc
      simp only [List.mem_cons, List.not_mem_nil, or_false] at hc
      rcases hc with h | h <;> (rw [h]; exact urlCh_ne_eq _))]
    simp [stripTrailingEq]
  | case4 =>
    rfl

theorem macCalc_eq_urlEncode (secret p : String) :
    macCalc secret p = b64GroupsUrl (hmacSha256 (strBytes secret) (strBytes p)) :=
  b64_bridge _

/-- C10: a token signed per the stated format — the unpadded url-safe
base64 of HMAC-SHA256 keyed by the secret over the base64url payload
string — passes the handler's signature verification, and hmacVerify
accepts a signature exactly when it equals that encoding of the MAC. -/
theorem claim_C10 (secret p sig : String) :
    hmacVerify secret p (specSignature secret p) = true ∧
    (hmacVerify secret p sig = true ↔ sig = specSignature secret p) := by
  constructor
  · unfold hmacVerify specSignature
    rw [macCalc_eq_urlEncode]
    exact beq_self_eq_true _
  · unfold hmacVerify specSignature
    rw [macCalc_eq_urlEncode]
    rw [beq_iff_eq]
    exact eq_comm

/-- C7: a request whose token has exactly two segments, whose payload
parses and carries at least one resource identifier, and whose exp field
is missing or earlier than the current time, is answered 401 Token
expired — with no hypothesis on the signature, the server secret or any
other configuration, because the expiry guard precedes the secret and
signature checks. -/
theorem claim_C7 (req : Req) (env : Env) (w : World) (p s : String) (payload : Payload)
    (hsplit : jsSplitDot req.token = [p, s])
    (hparse : w.parseJson (w.decodeBase64Utf8 (base64UrlRepad p)) = some payload)
    (hid : jsTruthy payload.callId = true ∨ jsTruthy payload.recordingSid = true)
    (hexp : payload.exp = none ∨ env.now > payload.exp.getD 0) :
    handle req env w = (Outcome.err 401 "Token expired", []) := by
  have htok : ¬ req.token = "" := by
    intro h
    rw [h] at hsplit
    have hempty : jsSplitDot "" = [""] := rfl
    rw [hempty] at hsplit
    simp at hsplit
  have h1 : (!jsTruthy payload.callId && !jsTruthy payload.recordingSid) = false := by
    rcases hid with h | h <;> simp [h]
  have h2 : (jsExpFalsy payload.exp || decide (env.now > payload.exp.getD 0)) = true := by
    rcases hexp with h | h
    · simp [jsExpFalsy, h]
    · simp [h]
  simp only [handle, hsplit, hparse, h1, h2]
  simp [htok]

/-- Witness for C7: a concrete two-segment token whose payload carries a
call id and no exp is answered 401 Token expired even though no secret
is configured. -/
theorem claim_C7_witness :
    jsSplitDot reqC7.token = ["aa", "bb"] ∧
    handle reqC7 envBare worldC7 = (Outcome.err 401 "Token expired", []) :=
  ⟨by decide, claim_C7 reqC7 envBare worldC7 "aa" "bb" payloadC7 (by decide) rfl
    (Or.inl (by decide)) (Or.inl rfl)⟩

theorem attemptTrace_url (w : World) (range : Option String) (aB kB : Option String)
    (pa u : String) : ∀ q ∈ attemptTrace w range aB kB pa u, q.url = u := by
  intro q hq
  unfold attemptTrace at hq
  split at hq <;> simp only [List.mem_cons, List.not_mem_nil, or_false] at hq <;>
    rcases hq with h | h <;> (try rw [h]) <;> rfl

/-- C4: the upstream fetcher tries candidates strictly in list order; a
winning result is the effective response of its candidate, is 2xx with a
body, every earlier candidate's attempt lost, and no fetch was issued
for any candidate after the winner; when no candidate wins, every
candidate's attempt lost and the handler answers 502. -/
theorem claim_C4 (w : World) (range : Option String) (authBasic keyBasic : Option String)
    (primaryAuth : String) (cs : List String) (isHead : Bool) :
    (∀ u r, (tryCandidates w range authBasic keyBasic primaryAuth cs).1 = some (u, r) →
      r = attemptResp w authBasic keyBasic primaryAuth u ∧
      statusOk r.status = true ∧ r.hasBody = true ∧
      ∃ pre post, cs = pre ++ u :: post ∧
        (∀ p ∈ pre, wins (attemptResp w authBasic keyBasic primaryAuth p) = false) ∧
        (∀ q ∈ (tryCandidates w range authBasic keyBasic primaryAuth cs).2, q.url ∈ pre ++ [u])) ∧
    ((tryCandidates w range authBasic keyBasic primaryAuth cs).1 = none →
      (∀ u ∈ cs, wins (attemptResp w authBasic keyBasic primaryAuth u) = false) ∧
      finishFetch isHead (tryCandidates w range authBasic keyBasic primaryAuth cs).1 =
        Outcome.err 502 "Failed to fetch recording audio") := by
  induction cs with
  | nil =>
    constructor
    · intro u r h
      simp [tryCandidates] at h
    · intro h
      constructor
      · intro u hu
        simp at hu
      · simp [tryCandidates, finishFetch]
  | cons u0 rest ih =>
    have hstep : tryCandidates w range authBasic keyBasic primaryAuth (u0 :: rest) =
        (if wins (attemptResp w authBasic keyBasic primaryAuth u0) then
          (some (u0, attemptResp w authBasic keyBasic primaryAuth u0),
           attemptTrace w range authBasic keyBasic primaryAuth u0)
        else
          ((tryCandidates w range authBasic keyBasic primaryAuth rest).1,
           attemptTrace w range authBasic keyBasic primaryAuth u0 ++
             (tryCandidates w range authBasic keyBasic primaryAuth rest).2)) := rfl
    cases hwb : wins (attemptResp w authBasic keyBasic primaryAuth u0) with
    | true =>
      constructor
      · intro u r h
        rw [hstep, if_pos hwb] at h
        simp only [Option.some_inj, Prod.mk.injEq] at h
        obtain ⟨hu, hr⟩ := h
        subst hu
        subst hr
        have hok := hwb
        unfold wins at hok
        rw [Bool.and_eq_true] at hok
        refine ⟨rfl, hok.1, hok.2, [], rest, rfl, ?_, ?_⟩
        · intro p hp
          simp at hp
        · intro q hq
          rw [hstep, if_pos hwb] at hq
          have := attemptTrace_url w range authBasic keyBasic primaryAuth u0 q hq
          simp [this]
      · intro h
        rw [hstep, if_pos hwb] at h
        simp at h
    | false =>
      have hne : ¬ (wins (attemptResp w authBasic keyBasic primaryAuth u0) = true) := by
        rw [hwb]
        exact Bool.false_ne_true
      constructor
      · intro u r h
        rw [hstep, if_neg hne] at h
        have hrec := (ih.1 u r) h
        obtain ⟨hr, hok, hbody, pre, post, hcs, hpre, htr⟩ := hrec
        refine ⟨hr, hok, hbody, u0 :: pre, post, by rw [hcs]; rfl, ?_, ?_⟩
        · intro p hp
          rcases List.mem_cons.mp hp with h0 | h0
          · rw [h0]
            exact hwb
          · exact hpre p h0
        · intro q hq
          rw [hstep, if_neg hne] at hq
          rcases List.mem_append.mp hq with h0 | h0
          · have := attemptTrace_url w range authBasic keyBasic primaryAuth u0 q h0
            simp [this]
          · have := htr q h0
            simp only [List.cons_append, List.mem_cons]
            exact Or.inr (List.mem_append.mp this |> fun x =>
              List.mem_append.mpr x)
      · intro h
        rw [hstep, if_neg hne] at h
        have hrec := ih.2 h
        constructor
        · intro u hu
          rcases List.mem_cons.mp hu with h0 | h0
          · rw [h0]
            exact hwb
          · exact hrec.1 u h0
        · rw [hstep, if_neg hne]
          exact hrec.2

/-- Witness for C4: with two candidates where only the second wins, the
loop returns the second candidate's response, the theorem yields its 2xx
status and body, and the first candidate's attempt indeed lost. -/
theorem claim_C4_witness :
    (tryCandidates worldC4 none (some "Basic a") none "Basic a" ["https://u1", "https://u2"]).1 =
      some ("https://u2", respWin) ∧
    statusOk respWin.status = true ∧ respWin.hasBody = true ∧
    wins (attemptResp worldC4 (some "Basic a") none "Basic a" "https://u1") = false := by
  have h1 : (tryCandidates worldC4 none (some "Basic a") none "Basic a"
      ["https://u1", "https://u2"]).1 = some ("https://u2", respWin) := by decide
  have hc := (claim_C4 worldC4 none (some "Basic a") none "Basic a"
      ["https://u1", "https://u2"] false).1 "https://u2" respWin h1
  exact ⟨h1, hc.2.1, hc.2.2.1, by decide⟩

/-- C5: when the primary-credential attempt on a candidate returns 401
or 403 and both credential variants are configured (primary account
credential in use, secondary API-key credential present), the fetcher
retries that same candidate exactly once with the secondary credential —
the trace for the candidate is exactly the two attempts — and when the
retry is 2xx with a body, the retry response is the winning one and the
loop stops there, the primary failure not surfacing. -/
theorem claim_C5 (w : World) (range : Option String) (a k u : String) (rest : List String)
    (hfail : (w.audioResp u a).status = 401 ∨ (w.audioResp u a).status = 403) :
    attemptResp w (some a) (some k) a u = w.audioResp u k ∧
    attemptTrace w range (some a) (some k) a u =
      [fetchAudioRequest range u a, fetchAudioRequest range u k] ∧
    (wins (w.audioResp u k) = true →
      tryCandidates w range (some a) (some k) a (u :: rest) =
        (some (u, w.audioResp u k),
         [fetchAudioRequest range u a, fetchAudioRequest range u k])) := by
  have hcond : (((w.audioResp u a).status == 401 || (w.audioResp u a).status == 403) &&
      (some k).isSome && (some a).isSome) = true := by
    rcases hfail with h | h <;> simp [h]
  have h1 : attemptResp w (some a) (some k) a u = w.audioResp u k := by
    unfold attemptResp
    rw [if_pos hcond]
    rfl
  have h2 : attemptTrace w range (some a) (some k) a u =
      [fetchAudioRequest range u a, fetchAudioRequest range u k] := by
    unfold attemptTrace
    rw [if_pos hcond]
    rfl
  refine ⟨h1, h2, fun hwin => ?_⟩
  have hw : wins (attemptResp w (some a) (some k) a u) = true := by
    rw [h1]
    exact hwin
  have hstep : tryCandidates w range (some a) (some k) a (u :: rest) =
      (if wins (attemptResp w (some a) (some k) a u) then
        (some (u, attemptResp w (some a) (some k) a u),
         attemptTrace w range (some a) (some k) a u)
      else
        ((tryCandidates w range (some a) (some k) a rest).1,
         attemptTrace w range (some a) (some k) a u ++
           (tryCandidates w range (some a) (some k) a rest).2)) := rfl
  rw [hstep, if_pos hw, h1, h2]

/-- Witness for C5: a concrete candidate failing 401 under the primary
credential and winning under the secondary is retried once and the
secondary response is streamed. -/
theorem claim_C5_witness :
    (worldC5.audioResp "https://u" "pa").status = 401 ∧
    tryCandidates worldC5 none (some "pa") (some "ka") "pa" ["https://u"] =
      (some ("https://u", respWin),
       [fetchAudioRequest none "https://u" "pa", fetchAudioRequest none "https://u" "ka"]) := by
  refine ⟨by decide, ?_⟩
  exact (claim_C5 worldC5 none "pa" "ka" "https://u" [] (Or.inl (by decide))).2.2 (by decide)

theorem attemptTrace_shape (w : World) (range : Option String) (aB kB : Option String)
    (pa u : String) : ∀ q ∈ attemptTrace w range aB kB pa u,
    q.rangeHeader = (if jsTruthy range then some (range.getD "") else none) ∧
    q.kind = FetchKind.audio ∧ q.hasAbortSignal = false := by
  intro q hq
  unfold attemptTrace at hq
  split at hq
  · simp only [List.mem_cons, List.not_mem_nil, or_false] at hq
    rcases hq with h | h <;> subst h <;> exact ⟨rfl, rfl, rfl⟩
  · simp only [List.mem_cons, List.not_mem_nil, or_false] at hq
    subst hq
    exact ⟨rfl, rfl, rfl⟩

theorem tryCandidates_trace_mem (w : World) (range : Option String) (aB kB : Option String)
    (pa : String) (cs : List String) :
    ∀ q ∈ (tryCandidates w range aB kB pa cs).2,
      ∃ u, u ∈ cs ∧ q ∈ attemptTrace w range aB kB pa u := by
  induction cs with
  | nil =>
    intro q hq
    simp [tryCandidates] at hq
  | cons u0 rest ih =>
    intro q hq
    have hstep : tryCandidates w range aB kB pa (u0 :: rest) =
        (if wins (attemptResp w aB kB pa u0) then
          (some (u0, attemptResp w aB kB pa u0), attemptTrace w range aB kB pa u0)
        else
          ((tryCandidates w range aB kB pa rest).1,
           attemptTrace w range aB kB pa u0 ++ (tryCandidates w range aB kB pa rest).2)) := rfl
    rw [hstep] at hq
    by_cases hwb : wins (attemptResp w aB kB pa u0) = true
    · rw [if_pos hwb] at hq
      exact ⟨u0, List.mem_cons_self u0 rest, hq⟩
    · rw [if_neg hwb] at hq
      rcases List.mem_append.mp hq with h0 | h0
      · exact ⟨u0, List.mem_cons_self u0 rest, h0⟩
      · obtain ⟨u, hu, hmem⟩ := ih q h0
        exact ⟨u, List.mem_cons_of_mem u0 hu, hmem⟩

/-- C6: when the inbound Range header is present, every upstream media
fetch issued by the candidate loop forwards it verbatim, and the winning
response's status code is propagated verbatim to the client while its
Content-Range and Content-Length headers are copied unchanged exactly
when present. -/
theorem claim_C6 (w : World) (range : Option String) (authB keyB : Option String)
    (pa : String) (cs : List String) (isHead : Bool) (u : String) (r : FetchResp)
    (hr : jsTruthy range = true)
    (hwin : (tryCandidates w range authB keyB pa cs).1 = some (u, r)) :
    (∀ q ∈ (tryCandidates w range authB keyB pa cs).2, q.rangeHeader = some (range.getD "")) ∧
    finishFetch isHead (some (u, r)) =
      Outcome.media
        { status := r.status
          contentType :=
            if jsTruthy r.contentType then r.contentType.getD ""
            else if endsWithChars u.toList ".wav".toList then "audio/wav" else "audio/mpeg"
          contentRange := if jsTruthy r.contentRange then some (r.contentRange.getD "") else none
          contentLength := if jsTruthy r.contentLength then some (r.contentLength.getD "") else none }
        isHead (if isHead then BodyFate.dropped else BodyFate.piped) := by
  constructor
  · intro q hq
    obtain ⟨u0, _, hmem⟩ := tryCandidates_trace_mem w range authB keyB pa cs q hq
    have hshape := (attemptTrace_shape w range authB keyB pa u0 q hmem).1
    rw [hshape, if_pos hr]
  · have hc := (claim_C4 w range authB keyB pa cs isHead).1 u r hwin
    have hok := hc.2.1
    have hbody := hc.2.2.1
    have hcond : (!(statusOk r.status) || !r.hasBody) = false := by
      rw [hok, hbody]
      rfl
    cases isHead <;> simp [finishFetch, hcond]

/-- Witness for C6: with an inbound Range of bytes=100-199 and an
upstream 206 carrying Content-Range bytes 100-199/5000, the issued fetch
forwards the Range verbatim and the client response is a 206 with both
range headers unchanged. -/
theorem claim_C6_witness :
    (tryCandidates worldC6 (some "bytes=100-199") (some "A") none "A" ["https://u"]).1 =
      some ("https://u", resp206) ∧
    (∀ q ∈ (tryCandidates worldC6 (some "bytes=100-199") (some "A") none "A" ["https://u"]).2,
      q.rangeHeader = some "bytes=100-199") ∧
    finishFetch false (some ("https://u", resp206)) =
      Outcome.media
        { status := 206, contentType := "audio/mpeg",
          contentRange := some "bytes 100-199/5000", contentLength := some "100" }
        false BodyFate.piped := by
  have hwin : (tryCandidates worldC6 (some "bytes=100-199") (some "A") none "A" ["https://u"]).1 =
      some ("https://u", resp206) := by decide
  have hc := claim_C6 worldC6 (some "bytes=100-199") (some "A") none "A" ["https://u"] false
    "https://u" resp206 (by decide) hwin
  exact ⟨hwin, fun q hq => hc.1 q hq, hc.2⟩

theorem base44_trace_kinds (env : Env) (w : World) (cid : String) :
    ∀ q ∈ (base44LoginAndGetCall env w cid).2,
      q.kind = FetchKind.login ∨ q.kind = FetchKind.entity := by
  intro q hq
  simp only [base44LoginAndGetCall] at hq
  split at hq
  · simp at hq
  · split at hq
    · simp only [List.mem_cons, List.not_mem_nil, or_false] at hq
      subst hq
      exact Or.inl rfl
    · split at hq
      · simp only [List.mem_cons, List.not_mem_nil, or_false] at hq
        subst hq
        exact Or.inl rfl
      · split at hq
        · simp only [List.mem_cons, List.not_mem_nil, or_false] at hq
          rcases hq with h | h <;> subst h
          · exact Or.inl rfl
          · exact Or.inr rfl
        · split at hq <;>
            (simp only [List.mem_cons, List.not_mem_nil, or_false] at hq
             rcases hq with h | h <;> subst h
             · exact Or.inl rfl
             · exact Or.inr rfl)

/-- C9: a request resolved through the call-identifier strategy whose
record-store lookup yields no record — because the lookup threw (for
example, credentials missing or login failure) or the record was not
found — is answered 404 Call not found with only the lookup's own
fetches in the trace: the upstream fetcher is never invoked and no list
strategy (including the token's provider-call-sid fallback, on which
nothing is assumed) is attempted. -/
theorem claim_C9 (req : Req) (env : Env) (w : World) (payload : Payload)
    (acc : String) (aB kB : Option String) (pa : String)
    (hnosid : jsTruthy payload.recordingSid = false)
    (hcid : jsTruthy payload.callId = true)
    (hnone : (match (base44LoginAndGetCall env w (payload.callId.getD "")).1 with
              | Except.error _ => none
              | Except.ok c => c) = (none : Option CallRecord)) :
    resolveFetchRespond req env w payload acc aB kB pa =
      (Outcome.err 404 "Call not found", (base44LoginAndGetCall env w (payload.callId.getD "")).2) ∧
    ∀ q ∈ (base44LoginAndGetCall env w (payload.callId.getD "")).2,
      q.kind ≠ FetchKind.audio ∧ q.kind ≠ FetchKind.list := by
  constructor
  · simp only [resolveFetchRespond, resolveCandidates, resolveStep1, hnosid, hcid, hnone]
    simp
  · intro q hq
    rcases base44_trace_kinds env w (payload.callId.getD "") q hq with h | h <;>
      rw [h] <;> exact ⟨by decide, by decide⟩

/-- Witness for C9: a concrete failed record-store login (HTTP 500)
under a call-id payload that also carries a provider call sid is
answered 404 Call not found, the trace holds only the login fetch, and
neither the upstream fetcher nor any list strategy ran — even though the
fixture world would have answered both successfully. -/
theorem claim_C9_witness :
    (match (base44LoginAndGetCall envC9 worldC9 "c1").1 with
     | Except.error _ => none
     | Except.ok c => c) = (none : Option CallRecord) ∧
    resolveFetchRespond reqC9 envC9 worldC9 payloadC9 "AC1" (some "A") none "A" =
      (Outcome.err 404 "Call not found", [base44LoginRequest "app"]) := by
  refine ⟨by decide, ?_⟩
  exact (claim_C9 reqC9 envC9 worldC9 payloadC9 "AC1" (some "A") none "A"
    (by decide) (by decide) (by decide)).1

/-- Counterexample for C1: a call record carrying both a recording sid
and a direct media URL does not yield only the two recording-sid
candidates — the source tests the two fields in two independent if
statements, so the media-URL candidates are appended as well. -/
theorem claim_C1_counterexample :
    candidatesFromRecord "AC"
      { twilio_recording_sid := some "RE1", recording_url := some "https://h/a.mp3",
        twilio_call_sid := none } ≠
    recordingUrls "AC" "RE1" := by decide

/-- C1 as amended: for a record found by the call-id strategy that
carries a recording sid, the resolver returns exactly the two
recording-sid candidates followed by the media-URL candidates when a
direct media URL is also present (and nothing else: no list strategy or
token fallback is consulted, the trace being the lookup's own). -/
theorem claim_C1_amended (env : Env) (w : World) (payload : Payload)
    (acc pa : String) (call : CallRecord) (tr : List FetchRequest)
    (hnosid : jsTruthy payload.recordingSid = false)
    (hcid : jsTruthy payload.callId = true)
    (hlook : base44LoginAndGetCall env w (payload.callId.getD "") = (Except.ok (some call), tr))
    (hsid : jsTruthy call.twilio_recording_sid = true) :
    resolveCandidates env w payload acc pa =
      (Except.ok (recordingUrls acc (call.twilio_recording_sid.getD "") ++
        (if jsTruthy call.recording_url then normalizeRecordingUrl (call.recording_url.getD "")
         else [])), tr) := by
  have hne : (candidatesFromRecord acc call).isEmpty = false := by
    unfold candidatesFromRecord
    rw [if_pos hsid]
    rfl
  simp only [resolveCandidates, resolveStep1, hnosid, hcid, hlook, hne]
  simp only [candidatesFromRecord, hsid, if_pos]
  simp [hne]
  intro h1
  simp [recordingUrls] at h1

/-- Witness for the amended C1: a concrete record carrying both fields
resolves to the two recording-sid URLs followed by the two media-URL
variants, with only the lookup's fetches in the trace. -/
theorem claim_C1_amended_witness :
    base44LoginAndGetCall envC9 worldC1 "c1" =
      (Except.ok (some callBoth),
       [base44LoginRequest "app", base44CallRequest worldC1 "app" "tok" "c1"]) ∧
    resolveCandidates envC9 worldC1 payloadC1 "AC1" "A" =
      (Except.ok [recordingUrl "AC1" "RE1" ".mp3", recordingUrl "AC1" "RE1" ".wav",
        "https://h/a.mp3", "https://h/a.wav"],
       [base44LoginRequest "app", base44CallRequest worldC1 "app" "tok" "c1"]) := by
  refine ⟨rfl, ?_⟩
  exact claim_C1_amended envC9 worldC1 payloadC1 "AC1" "A" callBoth _
    (by decide) (by decide) rfl (by decide)

/-- Counterexample for C8: on a HEAD run with a winning upstream
response, the handler ends the client response with zero body bytes but
the upstream body stream is neither piped nor cancelled — it is dropped
unread, so the claimed piped-or-cancelled disjunction fails. -/
theorem claim_C8_counterexample :
    finishFetch true (some ("https://h/a.mp3", respWin)) =
      Outcome.media
        { status := 200, contentType := "audio/mpeg", contentRange := none,
          contentLength := some "4" } true BodyFate.dropped ∧
    BodyFate.dropped ≠ BodyFate.piped ∧ BodyFate.dropped ≠ BodyFate.cancelled := by decide

/-- C8 as amended: for every winning upstream response, a GET run pipes
the upstream body to the client, while a HEAD run ends the client
response with zero body bytes and leaves the upstream body neither
piped nor cancelled; no run cancels the body. -/
theorem claim_C8_amended (isHead : Bool) (u : String) (r : FetchResp)
    (hok : statusOk r.status = true) (hb : r.hasBody = true) :
    ∃ m : RespMeta, finishFetch isHead (some (u, r)) =
      Outcome.media m isHead (if isHead then BodyFate.dropped else BodyFate.piped) ∧
    m.status = r.status := by
  have hcond : (!(statusOk r.status) || !r.hasBody) = false := by
    rw [hok, hb]
    rfl
  refine ⟨{ status := r.status
            contentType :=
              if jsTruthy r.contentType then r.contentType.getD ""
              else if endsWithChars u.toList ".wav".toList then "audio/wav" else "audio/mpeg"
            contentRange := if jsTruthy r.contentRange then some (r.contentRange.getD "") else none
            contentLength :=
              if jsTruthy r.contentLength then some (r.contentLength.getD "") else none },
    ?_, rfl⟩
  cases isHead <;> simp [finishFetch, hcond]

/-- Witness for the amended C8: the concrete winning response is piped
on a GET run and dropped unread on a HEAD run. -/
theorem claim_C8_amended_witness :
    (∃ m : RespMeta, finishFetch false (some ("https://u", respWin)) =
      Outcome.media m false BodyFate.piped ∧ m.status = respWin.status) ∧
    finishFetch true (some ("https://u", respWin)) =
      Outcome.media
        { status := 200, contentType := "audio/mpeg", contentRange := none,
          contentLength := some "4" } true BodyFate.dropped := by
  constructor
  · have h := claim_C8_amended false "https://u" respWin (by decide) (by decide)
    obtain ⟨m, hm, hs⟩ := h
    exact ⟨m, hm, hs⟩
  · decide

theorem base44_trace_noSignal (env : Env) (w : World) (cid : String) :
    ∀ q ∈ (base44LoginAndGetCall env w cid).2, q.hasAbortSignal = false := by
  intro q hq
  simp only [base44LoginAndGetCall] at hq
  split at hq
  · simp at hq
  · split at hq
    · simp only [List.mem_cons, List.not_mem_nil, or_false] at hq
      subst hq
      rfl
    · split at hq
      · simp only [List.mem_cons, List.not_mem_nil, or_false] at hq
        subst hq
        rfl
      · split at hq
        · simp only [List.mem_cons, List.not_mem_nil, or_false] at hq
          rcases hq with h | h <;> subst h <;> rfl
        · split at hq <;>
            (simp only [List.mem_cons, List.not_mem_nil, or_false] at hq
             rcases hq with h | h <;> subst h <;> rfl)

theorem listRecordingCandidates_noSignal (w : World) (acc pa sid : String) :
    ∀ q ∈ (listRecordingCandidates w acc pa sid).2, q.hasAbortSignal = false := by
  intro q hq
  simp only [listRecordingCandidates] at hq
  split at hq <;>
    (simp only [List.mem_cons, List.not_mem_nil, or_false] at hq
     subst hq
     rfl)

theorem resolveStep1_noSignal (env : Env) (w : World) (payload : Payload) (acc pa : String) :
    ∀ q ∈ (resolveStep1 env w payload acc pa).2, q.hasAbortSignal = false := by
  intro q hq
  simp only [resolveStep1] at hq
  split at hq
  · simp at hq
  · split at hq
    · split at hq
      · exact base44_trace_noSignal env w (payload.callId.getD "") q hq
      · split at hq
        · rcases List.mem_append.mp hq with h | h
          · exact base44_trace_noSignal env w (payload.callId.getD "") q h
          · exact listRecordingCandidates_noSignal w acc pa _ q h
        · exact base44_trace_noSignal env w (payload.callId.getD "") q hq
    · simp at hq

theorem resolveCandidates_noSignal (env : Env) (w : World) (payload : Payload) (acc pa : String) :
    ∀ q ∈ (resolveCandidates env w payload acc pa).2, q.hasAbortSignal = false := by
  intro q hq
  cases hres : resolveStep1 env w payload acc pa with
  | mk res tr =>
    have base : ∀ x ∈ tr, x.hasAbortSignal = false := by
      intro x hx
      have h := resolveStep1_noSignal env w payload acc pa x
      rw [hres] at h
      exact h hx
    cases res with
    | error e =>
      simp only [resolveCandidates, hres] at hq
      exact base q hq
    | ok cands =>
      simp only [resolveCandidates, hres] at hq
      split at hq
      · rcases List.mem_append.mp hq with h | h
        · exact base q h
        · exact listRecordingCandidates_noSignal w acc pa _ q h
      · exact base q hq

theorem resolveFetchRespond_noSignal (req : Req) (env : Env) (w : World) (payload : Payload)
    (acc : String) (aB kB : Option String) (pa : String) :
    ∀ q ∈ (resolveFetchRespond req env w payload acc aB kB pa).2, q.hasAbortSignal = false := by
  intro q hq
  cases hres : resolveCandidates env w payload acc pa with
  | mk res tr =>
    have base : ∀ x ∈ tr, x.hasAbortSignal = false := by
      intro x hx
      have h := resolveCandidates_noSignal env w payload acc pa x
      rw [hres] at h
      exact h hx
    cases res with
    | error e =>
      simp only [resolveFetchRespond, hres] at hq
      exact base q hq
    | ok cands =>
      simp only [resolveFetchRespond, hres] at hq
      split at hq
      · exact base q hq
      · rcases List.mem_append.mp hq with h | h
        · exact base q h
        · obtain ⟨u, _, hmem⟩ := tryCandidates_trace_mem w req.range aB kB pa _ q h
          exact (attemptTrace_shape w req.range aB kB pa u q hmem).2.2

/-- C2 as amended: the app shell does create a per-request abort signal
and expose it on the request, but the recording route passes no signal
into any outbound fetch — every fetch request issued by any run of the
handler, on every path (record-store login and entity fetch, provider
list query, upstream media fetch), carries no AbortSignal, so an
in-flight upstream fetch is not aborted when the client disconnects. -/
theorem claim_C2_amended (req : Req) (env : Env) (w : World) :
    ∀ q ∈ (handle req env w).2, q.hasAbortSignal = false := by
  intro q hq
  simp only [handle] at hq
  split at hq
  · simp at hq
  · split at hq
    · split at hq
      · simp at hq
      · split at hq
        · simp at hq
        · split at hq
          · simp at hq
          · split at hq
            · simp at hq
            · split at hq
              · simp at hq
              · split at hq
                · simp at hq
                · split at hq
                  · simp at hq
                  · exact resolveFetchRespond_noSignal req env w _ _ _ _ _ q hq
    · simp at hq

set_option maxRecDepth 10000 in
/-- Counterexample for C2: a complete run of the handler on a genuinely
signed token issues an upstream media fetch, and that fetch carries no
AbortSignal — the per-request signal the app shell derives from the
connection lifecycle is not passed into it, contradicting the claim that
it is passed into every outbound fetch. -/
theorem claim_C2_counterexample :
    (handle reqC2 envC9 worldC2).2 =
      [fetchAudioRequest none (recordingUrl "AC1" "RE9" ".mp3") "Basic QUMxOnQ="] ∧
    (fetchAudioRequest none (recordingUrl "AC1" "RE9" ".mp3") "Basic QUMxOnQ=").hasAbortSignal =
      false := by
  constructor
  · decide
  · rfl

set_option maxRecDepth 10000 in
/-- Witness for the amended C2: the fetch issued by the concrete
signed-token run indeed carries no AbortSignal, obtained through the
amended theorem at that run. -/
theorem claim_C2_amended_witness :
    (fetchAudioRequest none (recordingUrl "AC1" "RE9" ".mp3") "Basic QUMxOnQ=").hasAbortSignal =
      false :=
  claim_C2_amended reqC2 envC9 worldC2
    (fetchAudioRequest none (recordingUrl "AC1" "RE9" ".mp3") "Basic QUMxOnQ=") (by decide)

/-- Counterexample for C3: the record-store lookup keeps no session
state — its embedding takes no cache and the source module holds no
cross-request variable — so each of two back-to-back requests in the
same process performs its own login fetch (two logins in total), where
the claim says the second request, finding a cached session of age well
under any TTL, performs none. -/
theorem claim_C3_counterexample :
    ((base44LoginAndGetCall envC9 worldC1 "c1").2.countP
       (fun q => decide (q.kind = FetchKind.login))) = 1 ∧
    (((base44LoginAndGetCall envC9 worldC1 "c1").2 ++
      (base44LoginAndGetCall envC9 worldC1 "c1").2).countP
       (fun q => decide (q.kind = FetchKind.login))) = 2 := by decide

/-- C3 as amended: there is no session cache — every request that
reaches the record-store lookup with all three credentials configured
performs a fresh login: its fetch trace always begins with the login
request. -/
theorem claim_C3_amended (env : Env) (w : World) (cid : String)
    (h1 : ¬ trimF env.BASE44_APP_ID = "") (h2 : ¬ trimF env.BASE44_ADMIN_EMAIL = "")
    (h3 : ¬ trimF env.BASE44_ADMIN_PASSWORD = "") :
    ∃ rest, (base44LoginAndGetCall env w cid).2 =
      base44LoginRequest (trimF env.BASE44_APP_ID) :: rest := by
  have hcond : ¬(trimF env.BASE44_APP_ID = "" ∨ trimF env.BASE44_ADMIN_EMAIL = "" ∨
      trimF env.BASE44_ADMIN_PASSWORD = "") := by
    push_neg
    exact ⟨h1, h2, h3⟩
  cases hls : statusOk w.loginResp.status with
  | false =>
    exact ⟨[], by simp [base44LoginAndGetCall, hcond, hls]⟩
  | true =>
    cases htok : w.loginResp.token with
    | none =>
      exact ⟨[], by simp [base44LoginAndGetCall, hcond, hls, htok]⟩
    | some tok =>
      cases h404 : w.callResp.status == 404 with
      | true =>
        exact ⟨[base44CallRequest w (trimF env.BASE44_APP_ID) tok cid],
          by simp [base44LoginAndGetCall, hcond, hls, htok, h404]⟩
      | false =>
        cases hcs : statusOk w.callResp.status with
        | false =>
          exact ⟨[base44CallRequest w (trimF env.BASE44_APP_ID) tok cid],
            by simp [base44LoginAndGetCall, hcond, hls, htok, h404, hcs]⟩
        | true =>
          exact ⟨[base44CallRequest w (trimF env.BASE44_APP_ID) tok cid],
            by simp [base44LoginAndGetCall, hcond, hls, htok, h404, hcs]⟩

/-- Witness for the amended C3: the concrete successful lookup's trace
begins with the login request. -/
theorem claim_C3_amended_witness :
    ∃ rest, (base44LoginAndGetCall envC9 worldC1 "c1").2 =
      base44LoginRequest "app" :: rest :=
  claim_C3_amended envC9 worldC1 "c1" (by decide) (by decide) (by decide)

end StreamCallRecording
